import Mathlib

/-!
Verification development for the smartphone supply-chain MILP planner
(`smartphone_config_utils.py`, `smartphone_data_prep.py`,
`smartphone_milp_model.py`, `advanced_supply_chain.py`, `smartphone_run.py`,
`smartphone_validation.py`).

The MILP builders are embedded shallowly: the constraint set a builder emits
is modelled as a `Prop`-valued structure over an assignment of values to the
decision variables (integer variables with lower bound 0 become `ℕ`, binary
variables become `Bool`, real-valued comparisons are stated over `ℤ`/`ℚ`).
Pure helper functions (`eu_zone_pair`, `ceil_div_expr`, the edge-permission
rule, the validator checks) are translated directly.
-/

/-- Transport modes; `MODES_FCWH = ["TRUCK", "SHIP", "AIR"]` in
`smartphone_config_utils.py`. -/
inductive Mode where
  | truck
  | ship
  | air
deriving DecidableEq

/-- `MODES_FCWH` from `smartphone_config_utils.py` (factory→warehouse modes). -/
def MODES_FCWH : List Mode := [Mode.truck, Mode.ship, Mode.air]

/-- `CONTAINER_CAP = 4_000` from `smartphone_config_utils.py`. -/
def CONTAINER_CAP : ℕ := 4000

/-- `TON_PENALTY_USD = 200.0` from `smartphone_config_utils.py`. -/
def TON_PENALTY_USD : ℚ := 200

/-- `BIG_M = 10**9` from `smartphone_config_utils.py`. -/
def BIG_M : ℕ := 10 ^ 9

/-- `MODE_BLOCK_WEEKS = 4` from `smartphone_config_utils.py`. -/
def MODE_BLOCK_WEEKS : ℕ := 4

/-- `eu_zone_pair` from `smartphone_config_utils.py`:
`{iso1, iso2} <= {"DEU", "FRA"}`. -/
def eu_zone_pair (iso1 iso2 : String) : Bool :=
  (iso1 == "DEU" || iso1 == "FRA") && (iso2 == "DEU" || iso2 == "FRA")

/-- The mode-permission rule of the edge-construction loop in
`smartphone_data_prep.py` (lines 89–96): a candidate mode is skipped when
`isoF == isoH and mode != "TRUCK"`, and when
`isoF != isoH and mode == "TRUCK" and not eu_zone_pair(isoF, isoH)`;
otherwise `(f, h, mode)` is appended to `edges_FC_WH`. -/
def edge_mode_allowed (isoF isoH : String) (m : Mode) : Bool :=
  if isoF == isoH && !(m == Mode.truck) then false
  else if isoF != isoH && (m == Mode.truck) && !(eu_zone_pair isoF isoH) then false
  else true

/-- The edge-existence rule as the spec words it (claim C6): domestic edges
take TRUCK only; cross-border edges with both endpoints in the friction-less
zone (DEU/FRA) take any of TRUCK/SHIP/AIR; cross-border edges outside the
zone take SHIP or AIR only. -/
def edge_mode_allowed_spec (isoF isoH : String) (m : Mode) : Bool :=
  (isoF == isoH && (m == Mode.truck))
  || (isoF != isoH && eu_zone_pair isoF isoH)
  || (isoF != isoH && !(eu_zone_pair isoF isoH) && ((m == Mode.ship) || (m == Mode.air)))

/-- `ceil_div_expr` from `smartphone_config_utils.py`:
`q = expr / divisor; frac = q - floor(q); return ceil(q + 0*frac)`,
i.e. the exact ceiling of `expr / divisor`. -/
def ceil_div_expr (expr divisor : ℚ) : ℤ :=
  ⌈expr / divisor⌉

/-- The total-CO2 linear expression of claim C7: production factor × units
produced plus transport factor × shipped quantity (`co2_prod + co2_tran`
as assembled in `smartphone_run.py` / `advanced_supply_chain.py`). -/
def total_co2 (prodFactor units transFactor shipped : ℚ) : ℚ :=
  prodFactor * units + transFactor * shipped

/-- `env_fee = TON_PENALTY_USD * ceil_div_expr(co2_prod + co2_tran, 1000)`
from `smartphone_run.py` line 116. -/
def env_fee (co2 : ℚ) : ℚ :=
  TON_PENALTY_USD * (ceil_div_expr co2 1000 : ℚ)

/-- The keys of the `cost_terms` dictionary inside the `var_bag` returned by
`build_model` in `smartphone_milp_model.py` (lines 289–299). -/
def cost_terms_keys : List String :=
  ["capex", "prod", "trans", "inv", "short", "co2p", "co2t"]

/-- The keys of the `var_bag` dictionary returned by `build_model` in
`smartphone_milp_model.py` (lines 289–299). -/
def var_bag_keys : List String :=
  ["openF", "openW", "tipF", "tipW", "actF", "actW", "ProdR", "ProdO",
   "ShipF2W", "ShipW2C", "Inv", "Short", "Scrap", "modeUsed", "cost_terms"]

/-- The keys of the dictionary returned by `build_full_model` in
`advanced_supply_chain.py` (lines 206–210). -/
def full_model_keys : List String :=
  ["openF", "openW", "tipF", "tipW", "actF", "actW", "ProdR", "ProdO",
   "ShipF2W", "ShipW2C", "Inv", "Short", "Scrap", "modeBlock"]

/-- The `cost_terms` key read by `smartphone_run.py` line 44
(`change_pen = V["cost_terms"]["change"]`). -/
def run_cost_term_key : String := "change"

/-- The `var_bag` keys read by the switch-penalty loop of
`smartphone_run.py` (lines 95, 110–112): `V["modeBlock"]` and
`V["modeChange"]`. -/
def run_penalty_var_keys : List String := ["modeBlock", "modeChange"]

/-- The shipment rows dumped by `smartphone_run.py` (lines 147–165): each
solver value `v` (a container count) becomes a row quantity
`v * CONTAINER_CAP`, and zero quantities are skipped (`if qty == 0: continue`).
Factory→warehouse rows and warehouse→city rows are produced by the same
multiply-then-skip-zero rule. -/
def shipRowsQty (f2wContainers w2cContainers : List ℕ) : List ℕ :=
  ((f2wContainers.map (fun v => v * CONTAINER_CAP)).filter (fun q => q ≠ 0))
    ++ ((w2cContainers.map (fun v => v * CONTAINER_CAP)).filter (fun q => q ≠ 0))

/-- The container-divisibility check of `smartphone_validation.py`
(lines 43–48): `bad = ship_rows[ship_rows["ship_qty"] % CONTAINER_CAP != 0]`,
and the program exits with non-zero status iff `bad` is non-empty.
`containerCheck qtys = true` means the plan passes the check. -/
def containerCheck (qtys : List ℕ) : Bool :=
  (qtys.filter (fun q => q % CONTAINER_CAP != 0)).isEmpty

/-- Static reference data consumed by `build_full_model` in
`advanced_supply_chain.py`. The day axis starts at `DATE0 = 2018-01-01`,
a Monday, so day `d` (0-based) lies in week `d / 7` and has weekday `d % 7`;
`capRegDay`/`capOTDay` abstract the external `factory_capacity.csv` table
after the deterministic `// 7` split and the machine-failure override
(`capR = capO = 0` on failure days, missing rows read as 0); `demandDay`
abstracts the external `DEMAND_DICT` keyed by (day, sku, city). -/
structure AdvData where
  FACTORIES : List String
  WAREHOUSES : List String
  CITIES : List String
  SKUS : List String
  edges_FC_WH : List (String × String × Mode)
  edges_WH_CT : List (String × String)
  nDays : ℕ
  numWeeks : ℕ
  ageMax : ℕ
  life_weeks : String → ℕ
  capRegDay : ℕ → String → ℕ
  capOTDay : ℕ → String → ℕ
  demandDay : ℕ → String → String → ℕ

/-- An assignment of values to the decision variables of `build_full_model`:
binary variables become `Bool`, non-negative integer variables become `ℕ`.
Names follow the source (`OpenF`, `TipF`, `FacAct`, `ProdReg`, `ProdOT`,
`ShipF2W`, `ModeBlk`, `ShipW2C`, `Inv`, `Short`, `Scrap`). -/
structure AdvSol where
  openF : String → Bool
  openW : String → Bool
  tipF : String → ℕ
  tipW : String → ℕ
  actF : ℕ → String → Bool
  actW : ℕ → String → Bool
  ProdR : ℕ → String → String → ℕ
  ProdO : ℕ → String → String → ℕ
  ShipF2W : ℕ → String × String × Mode → ℕ
  modeBlock : ℕ → ℕ → String × String → Mode → Bool
  ShipW2C : ℕ → String → String → String → ℕ
  Inv : ℕ → String → String → ℕ → ℕ
  Short : ℕ → String → String → ℕ
  Scrap : ℕ → String → String → ℕ

/-- `week_monday`: day `d` lies in week `d / 7` (the horizon starts on a
Monday, and `WEEKS` enumerates the horizon's weeks in order). -/
def weekOfDay (d : ℕ) : ℕ := d / 7

/-- `d.weekday()`: 0 = Monday … 6 = Sunday for a horizon starting on Monday. -/
def dowOfDay (d : ℕ) : ℕ := d % 7

/-- `widx // MODE_BLOCK_WEEKS`: the 4-week block containing week `w`. -/
def blockOfWeek (w : ℕ) : ℕ := w / MODE_BLOCK_WEEKS

/-- `BLOCKS = range(math.ceil(len(WEEKS) / MODE_BLOCK_WEEKS))`. -/
def numBlocks (numWeeks : ℕ) : ℕ :=
  (numWeeks + MODE_BLOCK_WEEKS - 1) / MODE_BLOCK_WEEKS

/-- `edges = [(f,h) for f,h,_ in dp.edges_FC_WH]`. -/
def edgePairs (D : AdvData) : List (String × String) :=
  D.edges_FC_WH.map (fun e => (e.1, e.2.1))

/-- `week_days = [d for d in DAYS if week_monday(d) == w]`. -/
def weekDays (D : AdvData) (w : ℕ) : List ℕ :=
  (List.range D.nDays).filter (fun d => weekOfDay d == w)

/-- Cities served by warehouse `h`:
`[c for c in dp.CITIES if (h, c) in dp.edges_WH_CT]`. -/
def servedCities (D : AdvData) (h : String) : List String :=
  D.CITIES.filter (fun c => D.edges_WH_CT.any (fun p => p.1 == h && p.2 == c))

/-- `arrivals = quicksum(ShipF2W[d,(f,h,mn)] * CONTAINER_CAP for d in
week_days for f,hh,mn in dp.edges_FC_WH if hh == h)`. -/
def arrivalsWk (D : AdvData) (S : AdvSol) (w : ℕ) (h : String) : ℕ :=
  ((weekDays D w).map (fun d =>
    ((D.edges_FC_WH.filter (fun e => e.2.1 == h)).map
      (fun e => S.ShipF2W d e * CONTAINER_CAP)).sum)).sum

/-- `dispatch = quicksum(ShipW2C[d,h,c,s] for d in week_days for c in
dp.CITIES if (h,c) in dp.edges_WH_CT)`. -/
def dispatchWk (D : AdvData) (S : AdvSol) (w : ℕ) (h s : String) : ℕ :=
  ((weekDays D w).map (fun d =>
    ((servedCities D h).map (fun c => S.ShipW2C d h c s)).sum)).sum

/-- `demand = sum(dp.DEMAND_DICT.get((d,s,c),0) for d in week_days for c in
dp.CITIES if (h,c) in dp.edges_WH_CT)`. -/
def demandWk (D : AdvData) (w : ℕ) (h s : String) : ℕ :=
  ((weekDays D w).map (fun d =>
    ((servedCities D h).map (fun c => D.demandDay d s c)).sum)).sum

/-- `quicksum(Short[w,c,s] for c in dp.CITIES if (h,c) in dp.edges_WH_CT)`. -/
def shortSumWk (D : AdvData) (S : AdvSol) (w : ℕ) (h s : String) : ℕ :=
  ((servedCities D h).map (fun c => S.Short w c s)).sum

/-- `available = Inv[w,h,s,0] + arrivals`. -/
def availableWk (D : AdvData) (S : AdvSol) (w : ℕ) (h s : String) : ℕ :=
  S.Inv w h s 0 + arrivalsWk D S w h

/-- The constraint set emitted by `build_full_model` in
`advanced_supply_chain.py`, instantiated at an assignment `S` of the decision
variables. Each field is one family of `m.addConstr`/`addGenConstrIndicator`
calls, in source order. -/
structure AdvSatisfies (D : AdvData) (S : AdvSol) : Prop where
  facIndicator : ∀ w, w < D.numWeeks → ∀ f ∈ D.FACTORIES,
    S.actF w f = true → S.tipF f ≤ w
  whIndicator : ∀ w, w < D.numWeeks → ∀ h ∈ D.WAREHOUSES,
    S.actW w h = true → S.tipW h ≤ w
  maxFactory : (D.FACTORIES.map (fun f => (S.openF f).toNat)).sum ≤ 5
  maxWarehouse : (D.WAREHOUSES.map (fun h => (S.openW h).toNat)).sum ≤ 20
  prodRegCap : ∀ d, d < D.nDays → ∀ f ∈ D.FACTORIES,
    (D.SKUS.map (fun s => S.ProdR d f s)).sum
      ≤ D.capRegDay d f * (S.actF (weekOfDay d) f).toNat
  prodOTCap : ∀ d, d < D.nDays → ∀ f ∈ D.FACTORIES,
    (D.SKUS.map (fun s => S.ProdO d f s)).sum
      ≤ D.capOTDay d f * (S.actF (weekOfDay d) f).toNat
  modeExcl : ∀ b, b < numBlocks D.numWeeks → ∀ dow, dow < 7 →
    ∀ e ∈ edgePairs D,
      (MODES_FCWH.map (fun mn => (S.modeBlock b dow e mn).toNat)).sum ≤ 1
  shipModeBound : ∀ d, d < D.nDays → ∀ e ∈ D.edges_FC_WH,
    S.ShipF2W d e
      ≤ BIG_M * (S.modeBlock (blockOfWeek (weekOfDay d)) (dowOfDay d)
                   (e.1, e.2.1) e.2.2).toNat
  shipActFBound : ∀ d, d < D.nDays → ∀ e ∈ D.edges_FC_WH,
    S.ShipF2W d e ≤ BIG_M * (S.actF (weekOfDay d) e.1).toNat
  shipActWBound : ∀ d, d < D.nDays → ∀ e ∈ D.edges_FC_WH,
    S.ShipF2W d e ≤ BIG_M * (S.actW (weekOfDay d) e.2.1).toNat
  w2cGate : ∀ d, d < D.nDays → ∀ h ∈ D.WAREHOUSES,
    ((D.CITIES.map (fun c => (D.SKUS.map (fun s => S.ShipW2C d h c s)).sum)).sum)
      ≤ BIG_M * (S.actW (weekOfDay d) h).toNat
  invInitZero : ∀ h ∈ D.WAREHOUSES, ∀ s ∈ D.SKUS,
    S.Inv 0 h s 0 = 2000 * (S.openW h).toNat
  invInitAge : ∀ h ∈ D.WAREHOUSES, ∀ s ∈ D.SKUS, ∀ a, 1 ≤ a → a ≤ D.ageMax →
    S.Inv 0 h s a = 0
  dispatchEq : ∀ w, w < D.numWeeks → ∀ h ∈ D.WAREHOUSES, ∀ s ∈ D.SKUS,
    (dispatchWk D S w h s : ℤ)
      = (demandWk D w h s : ℤ) - (shortSumWk D S w h s : ℤ)
  dispatchLe : ∀ w, w < D.numWeeks → ∀ h ∈ D.WAREHOUSES, ∀ s ∈ D.SKUS,
    dispatchWk D S w h s ≤ availableWk D S w h s
  invNextZero : ∀ w, w + 1 < D.numWeeks → ∀ h ∈ D.WAREHOUSES, ∀ s ∈ D.SKUS,
    (S.Inv (w + 1) h s 0 : ℤ)
      = (availableWk D S w h s : ℤ) - (dispatchWk D S w h s : ℤ)
  ageing : ∀ w, w + 1 < D.numWeeks → ∀ h ∈ D.WAREHOUSES, ∀ s ∈ D.SKUS,
    ∀ a, a < D.life_weeks s → S.Inv (w + 1) h s (a + 1) = S.Inv w h s a
  scrapBound : ∀ w, w + 1 < D.numWeeks → ∀ h ∈ D.WAREHOUSES, ∀ s ∈ D.SKUS,
    S.Scrap w h s ≥ S.Inv w h s (D.life_weeks s)

/-- Reference data consumed by the weekly demand computation of
`build_model` in `smartphone_milp_model.py` (lines 229–233): the
warehouse→city edge list, `iso_city` (`dict.get`: city name → country code,
`none` for any other key, so country codes and `None` map to `none`), and
the external `DEMAND_DICT` keyed by (day, sku, city). -/
structure MilpDemData where
  edges_WH_CT : List (String × String)
  iso_city : String → Option String
  demandDay : ℕ → String → String → ℕ

/-- One iteration of the demand loop at `smartphone_milp_model.py`
lines 230–233, threading the Python variable `c` (a string or `None`,
modelled as `Option String`):
`dem += dp.DEMAND_DICT.get((d, s, c), 0) if (h, (c := dp.iso_city.get(c)))
in dp.edges_WH_CT else 0`. The walrus reassignment runs first, so both the
membership test and the demand lookup use the updated `c`. -/
def demStep (data : MilpDemData) (h s : String) (st : Option String × ℕ)
    (d : ℕ) : Option String × ℕ :=
  if data.edges_WH_CT.any
      (fun p => p.1 == h && (st.1.bind data.iso_city) == some p.2) then
    (st.1.bind data.iso_city,
     st.2 + (match st.1.bind data.iso_city with
             | some city => data.demandDay d s city
             | none => 0))
  else
    (st.1.bind data.iso_city, st.2)

/-- The weekly `dem` accumulation of `build_model` (lines 229–233):
`dem = 0` followed by the loop over the week's 7 days
(`daterange(w.start, w.start + 6)`), starting from whatever value the
Python variable `c` holds when the loop is entered (it leaks in from the
earlier loop at line 180). Returns the final `(c, dem)` pair. -/
def demWeek (data : MilpDemData) (w : ℕ) (h s : String) (c0 : Option String) :
    Option String × ℕ :=
  ((List.range 7).map (fun i => 7 * w + i)).foldl (demStep data h s) (c0, 0)

/-- The guard at `smartphone_milp_model.py` lines 239–240: the fill-rate
constraint `Short[w,h,s] <= 0.05 * dem` is emitted iff the computed `dem`
is positive. -/
def fillRateEmitted (data : MilpDemData) (w : ℕ) (h s : String)
    (c0 : Option String) : Prop :=
  0 < (demWeek data w h s c0).2

/-- The weekly service-area demand the fill-rate claim refers to — the sum
of `DEMAND_DICT` over the week's 7 days and the cities served by warehouse
`h` — i.e. what the loop at lines 229–233 evidently intended to compute. -/
def actualWeekDemand (data : MilpDemData) (w : ℕ) (h s : String) : ℕ :=
  ((List.range 7).map (fun i =>
    (((data.edges_WH_CT.filter (fun p => p.1 == h)).map (fun p => p.2)).map
      (fun c => data.demandDay (7 * w + i) s c)).sum)).sum

/-- In one demand-loop step the accumulator never grows, provided no value
of `iso_city` (a country code) occurs as the city of a warehouse→city
edge: the walrus clobbers `c` to a country code or `None` before the
membership test, which therefore fails. -/
theorem demStep_snd (data : MilpDemData) (h s : String)
    (hdisj : ∀ x y, data.iso_city x = some y →
      ∀ p ∈ data.edges_WH_CT, p.2 ≠ y)
    (st : Option String × ℕ) (d : ℕ) :
    (demStep data h s st d).2 = st.2 := by
  unfold demStep
  split
  · next hcond =>
    exfalso
    obtain ⟨p, hp, hpc⟩ := List.any_eq_true.mp hcond
    rw [Bool.and_eq_true] at hpc
    obtain ⟨-, hpc2⟩ := hpc
    obtain ⟨x, hx, hix⟩ := Option.bind_eq_some.mp (eq_of_beq hpc2)
    exact hdisj x p.2 hix p hp rfl
  · rfl

/-- Folding the demand step over any day list leaves the accumulator
unchanged. -/
theorem foldl_demStep_snd (data : MilpDemData) (h s : String)
    (hdisj : ∀ x y, data.iso_city x = some y →
      ∀ p ∈ data.edges_WH_CT, p.2 ≠ y) :
    ∀ (l : List ℕ) (st : Option String × ℕ),
      (l.foldl (demStep data h s) st).2 = st.2 := by
  intro l
  induction l with
  | nil => intro st; rfl
  | cons d l ih =>
    intro st
    rw [List.foldl_cons, ih, demStep_snd data h s hdisj]

/-- A Gurobi sum of binary variables equals the count of the true ones. -/
theorem countP_eq_sum_toNat {α : Type} (p : α → Bool) (l : List α) :
    l.countP p = (l.map (fun x => (p x).toNat)).sum := by
  induction l with
  | nil => rfl
  | cons x xs ih =>
    rw [List.countP_cons, List.map_cons, List.sum_cons, ih]
    cases hpx : p x <;> simp [hpx]
    omega

/-- A small instance of the reference data (one factory, one warehouse, one
city, one SKU, a two-week horizon) used to witness the constraint-set
theorems on a concrete model. -/
def exData : AdvData where
  FACTORIES := ["FC_A"]
  WAREHOUSES := ["WH_B"]
  CITIES := ["CT_C"]
  SKUS := ["SKU1"]
  edges_FC_WH := [("FC_A", "WH_B", Mode.truck)]
  edges_WH_CT := [("WH_B", "CT_C")]
  nDays := 14
  numWeeks := 2
  ageMax := 2
  life_weeks := fun _ => 2
  capRegDay := fun _ _ => 100
  capOTDay := fun _ _ => 50
  demandDay := fun _ _ _ => 0

/-- The all-closed, all-zero assignment: a feasible point of `exData`'s
constraint set. -/
def exSol : AdvSol where
  openF := fun _ => false
  openW := fun _ => false
  tipF := fun _ => 0
  tipW := fun _ => 0
  actF := fun _ _ => false
  actW := fun _ _ => false
  ProdR := fun _ _ _ => 0
  ProdO := fun _ _ _ => 0
  ShipF2W := fun _ _ => 0
  modeBlock := fun _ _ _ _ => false
  ShipW2C := fun _ _ _ _ => 0
  Inv := fun _ _ _ _ => 0
  Short := fun _ _ _ => 0
  Scrap := fun _ _ _ => 0

/-- The all-zero assignment satisfies every constraint of the small
instance. -/
theorem exSat : AdvSatisfies exData exSol := by
  constructor <;> first
    | decide
    | (intro w hw
       have hw' : w = 0 := by
         simp only [exData] at hw
         omega
       subst hw'
       decide)

/-- A concrete instance of the demand-loop data: one warehouse→city edge,
`iso_city` mapping the city to its country code, and a daily demand of 100
units for every (day, sku, city). -/
def exDemData : MilpDemData where
  edges_WH_CT := [("WH_B", "CT_C")]
  iso_city := fun c => if c == "CT_C" then some "KOR" else none
  demandDay := fun _ _ _ => 100

/-- On the concrete instance, no country code returned by `iso_city` is the
city of a warehouse→city edge. -/
theorem exDemDisj : ∀ x y, exDemData.iso_city x = some y →
    ∀ p ∈ exDemData.edges_WH_CT, p.2 ≠ y := by
  intro x y hxy p hp
  have hy : y = "KOR" := by
    by_cases hx : x = "CT_C"
    · simp only [exDemData, hx] at hxy
      simpa using hxy.symm
    · simp [exDemData, hx] at hxy
  subst hy
  simp only [exDemData, List.mem_singleton] at hp
  subst hp
  decide

/-- C1: in every assignment satisfying `build_full_model`'s constraints, for
every 4-week block, weekday and factory–warehouse edge-pair at most one mode
has its block-level `ModeBlk` indicator true, and a day-level `ShipF2W`
quantity is zero whenever the indicator of its day's block, weekday and
edge-pair is false — one mode decision binds the same weekday across all 4
weeks of the block. -/
theorem mode_stickiness (D : AdvData) (S : AdvSol) (hS : AdvSatisfies D S) :
    (∀ b, b < numBlocks D.numWeeks → ∀ dow, dow < 7 → ∀ e ∈ edgePairs D,
      MODES_FCWH.countP (fun mn => S.modeBlock b dow e mn) ≤ 1)
    ∧ (∀ d, d < D.nDays → ∀ e ∈ D.edges_FC_WH,
        S.modeBlock (blockOfWeek (weekOfDay d)) (dowOfDay d)
            (e.1, e.2.1) e.2.2 = false →
          S.ShipF2W d e = 0) := by
  constructor
  · intro b hb dow hdow e he
    rw [countP_eq_sum_toNat]
    exact hS.modeExcl b hb dow hdow e he
  · intro d hd e he hmb
    have h := hS.shipModeBound d hd e he
    rw [hmb] at h
    simpa using h

/-- C1 witness: the theorem instantiated on the concrete two-week model. -/
theorem mode_stickiness_witness :
    MODES_FCWH.countP (fun mn => exSol.modeBlock 0 0 ("FC_A", "WH_B") mn) ≤ 1
    ∧ exSol.ShipF2W 0 ("FC_A", "WH_B", Mode.truck) = 0 :=
  ⟨(mode_stickiness exData exSol exSat).1 0 (by decide) 0 (by decide)
      ("FC_A", "WH_B") (by decide),
   (mode_stickiness exData exSol exSat).2 0 (by decide)
      ("FC_A", "WH_B", Mode.truck) (by decide) (by decide)⟩

/-- C2: in every assignment satisfying `build_full_model`'s constraints, for
every warehouse, SKU and week before the last, each age bucket below the
SKU's shelf-life limit shifts one step per week
(`Inv[w+1,h,s,a+1] = Inv[w,h,s,a]`), and the shelf-life bucket's full value
is forced into scrap (`Scrap[w,h,s] ≥ Inv[w,h,s,life(s)]`). -/
theorem inventory_ageing (D : AdvData) (S : AdvSol) (hS : AdvSatisfies D S) :
    ∀ w, w + 1 < D.numWeeks → ∀ h ∈ D.WAREHOUSES, ∀ s ∈ D.SKUS,
      (∀ a, a < D.life_weeks s → S.Inv (w + 1) h s (a + 1) = S.Inv w h s a)
      ∧ S.Scrap w h s ≥ S.Inv w h s (D.life_weeks s) :=
  fun w hw h hh s hs =>
    ⟨hS.ageing w hw h hh s hs, hS.scrapBound w hw h hh s hs⟩

/-- C2 witness: the theorem instantiated on the concrete two-week model. -/
theorem inventory_ageing_witness :
    exSol.Inv 1 "WH_B" "SKU1" 1 = exSol.Inv 0 "WH_B" "SKU1" 0
    ∧ exSol.Scrap 0 "WH_B" "SKU1" ≥ exSol.Inv 0 "WH_B" "SKU1" 2 :=
  ⟨((inventory_ageing exData exSol exSat) 0 (by decide) "WH_B" (by decide)
      "SKU1" (by decide)).1 0 (by decide),
   ((inventory_ageing exData exSol exSat) 0 (by decide) "WH_B" (by decide)
      "SKU1" (by decide)).2⟩

/-- C3: in every assignment satisfying `build_full_model`'s constraints, for
every week before the last, warehouse and SKU: dispatch equals the week's
demand minus the shortfall over the warehouse's served cities, dispatch is
at most the available stock (age-0 inventory plus same-week arrivals), and
next week's age-0 bucket equals available minus dispatch. -/
theorem demand_service (D : AdvData) (S : AdvSol) (hS : AdvSatisfies D S) :
    ∀ w, w + 1 < D.numWeeks → ∀ h ∈ D.WAREHOUSES, ∀ s ∈ D.SKUS,
      (dispatchWk D S w h s : ℤ)
          = (demandWk D w h s : ℤ) - (shortSumWk D S w h s : ℤ)
      ∧ dispatchWk D S w h s ≤ availableWk D S w h s
      ∧ (S.Inv (w + 1) h s 0 : ℤ)
          = (availableWk D S w h s : ℤ) - (dispatchWk D S w h s : ℤ) :=
  fun w hw h hh s hs =>
    ⟨hS.dispatchEq w (Nat.lt_of_succ_lt hw) h hh s hs,
     hS.dispatchLe w (Nat.lt_of_succ_lt hw) h hh s hs,
     hS.invNextZero w hw h hh s hs⟩

/-- C3 witness: the theorem instantiated on the concrete two-week model. -/
theorem demand_service_witness :
    (dispatchWk exData exSol 0 "WH_B" "SKU1" : ℤ)
        = (demandWk exData 0 "WH_B" "SKU1" : ℤ)
          - (shortSumWk exData exSol 0 "WH_B" "SKU1" : ℤ)
    ∧ dispatchWk exData exSol 0 "WH_B" "SKU1"
        ≤ availableWk exData exSol 0 "WH_B" "SKU1"
    ∧ (exSol.Inv 1 "WH_B" "SKU1" 0 : ℤ)
        = (availableWk exData exSol 0 "WH_B" "SKU1" : ℤ)
          - (dispatchWk exData exSol 0 "WH_B" "SKU1" : ℤ) :=
  (demand_service exData exSol exSat) 0 (by decide) "WH_B" (by decide)
    "SKU1" (by decide)

/-- C4: in every assignment satisfying `build_full_model`'s constraints, for
every day, a factory whose weekly Active flag is false has zero regular
production, zero overtime production and zero outbound factory→warehouse
shipments that day, and a warehouse whose weekly Active flag is false has
zero inbound factory→warehouse shipments and zero warehouse→city shipments
that day — the constraints cap each sum or variable by a multiple of the
Active flag. -/
theorem activity_gating (D : AdvData) (S : AdvSol) (hS : AdvSatisfies D S) :
    ∀ d, d < D.nDays →
      (∀ f ∈ D.FACTORIES, S.actF (weekOfDay d) f = false →
        (∀ s ∈ D.SKUS, S.ProdR d f s = 0 ∧ S.ProdO d f s = 0)
        ∧ (∀ e ∈ D.edges_FC_WH, e.1 = f → S.ShipF2W d e = 0))
      ∧ (∀ wh ∈ D.WAREHOUSES, S.actW (weekOfDay d) wh = false →
        (∀ e ∈ D.edges_FC_WH, e.2.1 = wh → S.ShipF2W d e = 0)
        ∧ (∀ c ∈ D.CITIES, ∀ s ∈ D.SKUS, S.ShipW2C d wh c s = 0)) := by
  intro d hd
  constructor
  · intro f hf hact
    constructor
    · intro s hs
      have hR := hS.prodRegCap d hd f hf
      have hO := hS.prodOTCap d hd f hf
      rw [hact] at hR hO
      simp only [Bool.toNat_false, Nat.mul_zero, Nat.le_zero] at hR hO
      have hmR : S.ProdR d f s ≤ (D.SKUS.map (fun s => S.ProdR d f s)).sum :=
        List.single_le_sum (fun x _ => Nat.zero_le x) _
          (List.mem_map_of_mem _ hs)
      have hmO : S.ProdO d f s ≤ (D.SKUS.map (fun s => S.ProdO d f s)).sum :=
        List.single_le_sum (fun x _ => Nat.zero_le x) _
          (List.mem_map_of_mem _ hs)
      omega
    · intro e he hef
      have hb := hS.shipActFBound d hd e he
      rw [hef, hact] at hb
      simpa using hb
  · intro wh hwh hact
    constructor
    · intro e he heh
      have hb := hS.shipActWBound d hd e he
      rw [heh, hact] at hb
      simpa using hb
    · intro c hc s hs
      have hg := hS.w2cGate d hd wh hwh
      rw [hact] at hg
      simp only [Bool.toNat_false, Nat.mul_zero, Nat.le_zero] at hg
      have hinner : (D.SKUS.map (fun s => S.ShipW2C d wh c s)).sum
          ≤ (D.CITIES.map
              (fun c => (D.SKUS.map (fun s => S.ShipW2C d wh c s)).sum)).sum :=
        List.single_le_sum (fun x _ => Nat.zero_le x) _
          (List.mem_map_of_mem _ hc)
      have hvar : S.ShipW2C d wh c s
          ≤ (D.SKUS.map (fun s => S.ShipW2C d wh c s)).sum :=
        List.single_le_sum (fun x _ => Nat.zero_le x) _
          (List.mem_map_of_mem _ hs)
      omega

/-- C4 witness: the theorem instantiated on the concrete two-week model. -/
theorem activity_gating_witness :
    (exSol.ProdR 0 "FC_A" "SKU1" = 0 ∧ exSol.ProdO 0 "FC_A" "SKU1" = 0)
    ∧ exSol.ShipW2C 0 "WH_B" "CT_C" "SKU1" = 0 :=
  ⟨(((activity_gating exData exSol exSat) 0 (by decide)).1 "FC_A" (by decide)
      (by decide)).1 "SKU1" (by decide),
   (((activity_gating exData exSol exSat) 0 (by decide)).2 "WH_B" (by decide)
      (by decide)).2 "CT_C" (by decide) "SKU1" (by decide)⟩

/-- C5 (code evidence): the only fill-rate constraint in the repository is
guarded by `if dem > 0` (`smartphone_milp_model.py` lines 239–240), but the
weekly `dem` computed at lines 229–233 is always 0 — the stale Python
variable `c` is walrus-clobbered to a country code (then `None`) before the
`(h, c) in edges_WH_CT` test, which therefore always fails — so for every
week, warehouse, SKU and incoming `c` value the computed demand is 0 and
the `Short <= 0.05 * dem` constraint is never emitted, whatever the actual
weekly demand. The hypothesis states the data-model fact that `iso_city`
values (country codes) never occur as the city of a warehouse→city edge. -/
theorem fill_rate_never_emitted (data : MilpDemData)
    (hdisj : ∀ x y, data.iso_city x = some y →
      ∀ p ∈ data.edges_WH_CT, p.2 ≠ y) :
    ∀ (w : ℕ) (h s : String) (c0 : Option String),
      (demWeek data w h s c0).2 = 0 ∧ ¬ fillRateEmitted data w h s c0 := by
  intro w h s c0
  have h0 : (demWeek data w h s c0).2 = 0 := by
    unfold demWeek
    rw [foldl_demStep_snd data h s hdisj]
  exact ⟨h0, by simp [fillRateEmitted, h0]⟩

/-- C5 witness/failing input: on the concrete instance the actual weekly
service-area demand is 700 (> 0), yet the builder's computed `dem` is 0 and
no fill-rate constraint is emitted; `some "CT_C"` is the stale city name
`c` holds when the weekly loop is first entered. -/
theorem fill_rate_never_emitted_witness :
    actualWeekDemand exDemData 0 "WH_B" "SKU1" = 700
    ∧ (demWeek exDemData 0 "WH_B" "SKU1" (some "CT_C")).2 = 0
    ∧ ¬ fillRateEmitted exDemData 0 "WH_B" "SKU1" (some "CT_C") :=
  ⟨by decide,
   (fill_rate_never_emitted exDemData exDemDisj 0 "WH_B" "SKU1"
     (some "CT_C")).1,
   (fill_rate_never_emitted exDemData exDemDisj 0 "WH_B" "SKU1"
     (some "CT_C")).2⟩

/-- C9: in every assignment satisfying `build_full_model`'s constraints, at
most 5 factories and at most 20 warehouses are opened
(`openF.sum() <= 5`, `openW.sum() <= 20`; the same pair of constraints is
emitted by `build_model`). -/
theorem facility_caps (D : AdvData) (S : AdvSol) (hS : AdvSatisfies D S) :
    D.FACTORIES.countP (fun f => S.openF f) ≤ 5
    ∧ D.WAREHOUSES.countP (fun h => S.openW h) ≤ 20 := by
  constructor
  · rw [countP_eq_sum_toNat]
    exact hS.maxFactory
  · rw [countP_eq_sum_toNat]
    exact hS.maxWarehouse

/-- C9 witness: the theorem instantiated on the concrete two-week model. -/
theorem facility_caps_witness :
    exData.FACTORIES.countP (fun f => exSol.openF f) ≤ 5
    ∧ exData.WAREHOUSES.countP (fun h => exSol.openW h) ≤ 20 :=
  facility_caps exData exSol exSat

/-- C6: for every factory country, warehouse country and mode, the
edge-construction loop of `smartphone_data_prep.py` admits the triple exactly
when the spec's mode-permission rule does: domestic ⇒ TRUCK only; cross-border
with both countries in the friction-less zone (DEU/FRA) ⇒ any of
TRUCK/SHIP/AIR; cross-border outside the zone ⇒ SHIP/AIR only. -/
theorem edge_existence_rule (isoF isoH : String) (m : Mode) :
    edge_mode_allowed isoF isoH m = edge_mode_allowed_spec isoF isoH m := by
  rw [Bool.eq_iff_iff]
  simp only [edge_mode_allowed, edge_mode_allowed_spec, eu_zone_pair]
  by_cases h1 : isoF = isoH <;>
    by_cases h2 : isoF = "DEU" <;>
      by_cases h3 : isoF = "FRA" <;>
        by_cases h4 : isoH = "DEU" <;>
          by_cases h5 : isoH = "FRA" <;>
            cases m <;> simp_all

/-- C7: the environmental fee is the flat per-ton rate (200 USD) times the
ceiling of the total CO2 expression divided by 1000; it is 0 when the CO2
expression is 0 (no spurious positive value), and 1500 kg is charged as
2 × rate, not 1.5 × rate. -/
theorem carbon_fee_ceiling :
    (∀ pf units tf shipped : ℚ,
        env_fee (total_co2 pf units tf shipped)
          = TON_PENALTY_USD * (⌈(pf * units + tf * shipped) / 1000⌉ : ℤ))
    ∧ env_fee 0 = 0
    ∧ env_fee 1500 = 2 * TON_PENALTY_USD := by
  refine ⟨fun pf units tf shipped => rfl, ?_, ?_⟩
  · norm_num [env_fee, ceil_div_expr, TON_PENALTY_USD]
  · have hc : ⌈(1500 : ℚ) / 1000⌉ = 2 := by
      rw [Int.ceil_eq_iff]
      norm_num
    simp only [env_fee, ceil_div_expr]
    rw [hc]
    norm_num [TON_PENALTY_USD]

/-- C8 (code evidence): the switch-penalty code of `smartphone_run.py` reads
`V["cost_terms"]["change"]`, `V["modeBlock"]` and `V["modeChange"]`, but the
`var_bag` returned by `build_model` (the builder `smartphone_run.py` imports)
contains no `"change"` cost term and neither a `"modeBlock"` nor a
`"modeChange"` entry; the `build_full_model` bag also lacks `"modeChange"`
and any `cost_terms`. No ModeChangeIndicator variable is created anywhere,
so the claimed big-M penalty constraints are never added. -/
theorem mode_switch_penalty_keys_missing :
    run_cost_term_key ∉ cost_terms_keys
    ∧ "modeBlock" ∉ var_bag_keys
    ∧ "modeChange" ∉ var_bag_keys
    ∧ "modeChange" ∉ full_model_keys := by
  decide

/-- C10: every shipment quantity dumped to the plan record set is an exact
multiple of `CONTAINER_CAP = 4000`; the validator's container check fails
(non-zero exit) precisely when some row quantity is not divisible by 4000;
consequently every dumped plan passes the container check. -/
theorem container_alignment :
    (∀ a b : List ℕ, ∀ q ∈ shipRowsQty a b, CONTAINER_CAP ∣ q)
    ∧ (∀ qtys : List ℕ, containerCheck qtys = false ↔ ∃ q ∈ qtys, ¬ CONTAINER_CAP ∣ q)
    ∧ (∀ a b : List ℕ, containerCheck (shipRowsQty a b) = true) := by
  have hdvd : ∀ a b : List ℕ, ∀ q ∈ shipRowsQty a b, CONTAINER_CAP ∣ q := by
    intro a b q hq
    rcases List.mem_append.mp hq with hq' | hq' <;>
    · obtain ⟨v, _, rfl⟩ := List.mem_map.mp (List.mem_of_mem_filter hq')
      exact dvd_mul_left CONTAINER_CAP v
  have hcheck : ∀ qtys : List ℕ,
      containerCheck qtys = false ↔ ∃ q ∈ qtys, ¬ CONTAINER_CAP ∣ q := by
    intro qtys
    simp [containerCheck, List.isEmpty_iff, List.filter_eq_nil_iff,
          Nat.dvd_iff_mod_eq_zero]
  refine ⟨hdvd, hcheck, fun a b => ?_⟩
  cases hc : containerCheck (shipRowsQty a b) with
  | true => rfl
  | false =>
    obtain ⟨q, hq, hnd⟩ := (hcheck (shipRowsQty a b)).mp hc
    exact absurd (hdvd a b q hq) hnd
